import Mathlib

/-!
Shallow embedding of `src/api/index.js` (a Vercel Edge request router that
forwards traffic to a primary or backup origin based on a cached health
signal).  External effects (the inbound body stream, outbound `fetch` calls,
and the `@vercel/kv` store) are modelled by an explicit `World` record that
fixes the outcome of each external interaction, so the handler becomes a
pure, executable function from `(Env, InboundRequest, World)` to a result
recording the response sent to the caller, the outbound requests issued, and
the key-value writes attempted.
-/

namespace ProxyOneApi

/-- Header list of a fetch `Headers` object: association list of
(name, value).  Name lookup in `Headers` is case-insensitive, which the
operations below realise by lowering names before comparing. -/
abbrev HeaderList := List (String × String)

/-- ASCII lowercase of a character (header names are ASCII tokens). -/
def lowerChar (c : Char) : Char :=
  if 65 ≤ c.toNat ∧ c.toNat ≤ 90 then Char.ofNat (c.toNat + 32) else c

/-- ASCII lowercase of a header name. -/
def lowerName (s : String) : String := ⟨s.data.map lowerChar⟩

/-- `headers.delete(k)`: remove every entry whose name equals `k`
case-insensitively. -/
def headersDelete (hs : HeaderList) (k : String) : HeaderList :=
  hs.filter (fun p => lowerName p.1 ≠ lowerName k)

/-- `headers.set(k, v)`: remove any existing entries for `k` and store the
pair under the lowercased name (fetch `Headers` normalises names to
lowercase). -/
def headersSet (hs : HeaderList) (k v : String) : HeaderList :=
  headersDelete hs k ++ [(lowerName k, v)]

/-- The body attached to an outbound `Request`: either the single-read body stream
of the inbound request, identified by a tag, or a buffered `ArrayBuffer`
modelled as its byte list. -/
inductive OutBody
  | stream (tag : Nat)
  | buffer (bytes : List Nat)
deriving DecidableEq

/-- The inbound request, as the handler observes it: `request.method`,
`url.host`, `url.pathname`, `url.search`, `request.headers` and
`request.body` (`none` when the body is `null`, otherwise a tag naming the
stream). -/
structure InboundRequest where
  method : String
  host : String
  pathname : String
  search : String
  headers : HeaderList
  body : Option Nat
deriving DecidableEq

/-- The outbound `Request` built by `createProxyRequest`. -/
structure ProxyRequest where
  url : String
  method : String
  headers : HeaderList
  body : Option OutBody
  redirect : String
deriving DecidableEq

/-- The two environment variables `DOMAIN_MAIN` / `DOMAIN_BACKUP`
(`none` = unset). -/
structure Env where
  DOMAIN_MAIN : Option String
  DOMAIN_BACKUP : Option String
deriving DecidableEq

/-- `normalizeDomain`: the empty string for a missing/empty value, otherwise strip a
single trailing slash. -/
def normalizeDomain : Option String → String
  | none => ""
  | some domain =>
    if domain = "" then ""
    else if domain.data.getLast? = some '/' then domain.dropRight 1
    else domain

/-- `createProxyRequest(targetDomain, originalReq, bodyOverride)`: target URL
keeps the original pathname and search; headers are copied with `host`
deleted and `x-forwarded-host` set to the inbound host; the body is `null`
for GET/HEAD and otherwise `bodyOverride || originalReq.body`; redirects are
handled manually. -/
def createProxyRequest (targetDomain : String) (originalReq : InboundRequest)
    (bodyOverride : Option (List Nat)) : ProxyRequest :=
  { url := targetDomain ++ originalReq.pathname ++ originalReq.search
    method := originalReq.method
    headers := headersSet (headersDelete originalReq.headers "host")
      "x-forwarded-host" originalReq.host
    body :=
      if originalReq.method = "GET" ∨ originalReq.method = "HEAD" then none
      else
        match bodyOverride with
        | some b => some (.buffer b)
        | none => originalReq.body.map .stream
    redirect := "manual" }

/-- A response produced by an origin (status, headers, and a tag naming the
body, which the proxy never inspects). -/
structure OriginResponse where
  status : Nat
  headers : HeaderList
  bodyTag : Nat
deriving DecidableEq

/-- `response.ok`: status in the 2xx range. -/
def responseOk (r : OriginResponse) : Prop :=
  200 ≤ r.status ∧ r.status ≤ 299

instance (r : OriginResponse) : Decidable (responseOk r) := by
  unfold responseOk; infer_instance

/-- Outcome of the probe `fetch(proxyReqMain, { signal })`: either the fetch
resolved with a response inside the 10 s timeout, or it rejected (transport
error, or abort because the timeout fired). -/
inductive ProbeOutcome
  | resp (r : OriginResponse)
  | failure
deriving DecidableEq

/-- Fixed behaviour of everything outside the handler for one request:
the result of `request.arrayBuffer()`, the probe outcome against the
primary, the responses of plain (non-probe) fetches, the result of
`kv.get` on the `primary_status` key, and whether the detached `kv.set`
task fails. -/
structure World where
  bodyRead : Except Unit (List Nat)
  probe : ProbeOutcome
  fetchResp : ProxyRequest → OriginResponse
  kvGet : Except Unit (Option String)
  kvSetFails : Bool

/-- One `kv.set(key, value, { ex })` call; `ok` records whether the detached
task succeeded. -/
structure KvWrite where
  key : String
  value : String
  ex : Nat
  ok : Bool
deriving DecidableEq

/-- The response delivered to the caller. -/
inductive HandlerResponse
  | configError
  | badRequest
  | origin (r : OriginResponse)
deriving DecidableEq

/-- HTTP status of the delivered response. -/
def HandlerResponse.status : HandlerResponse → Nat
  | .configError => 500
  | .badRequest => 400
  | .origin r => r.status

/-- What one invocation of the handler did: the response returned, the
outbound requests issued (in order), the kv writes attempted, and how many
kv reads were performed. -/
structure HandlerResult where
  response : HandlerResponse
  fetches : List ProxyRequest
  kvWrites : List KvWrite
  kvGets : Nat

/-- The body-buffering step of the `/api/notice` branch: when the request
has a body, read it fully into memory (`request.arrayBuffer()`), which may
fail; otherwise the buffer stays `null`. -/
def bufferBody (req : InboundRequest) (w : World) :
    Except Unit (Option (List Nat)) :=
  match req.body with
  | none => .ok none
  | some _ => w.bodyRead.map some

/-- The failover half of the `/api/notice` branch: mark the primary `down`
(detached write, 600 s TTL) and return the response of the backup, reusing the
buffered body.  The primary probe request was already issued. -/
def failoverToBackup (dMain dBackup : String) (req : InboundRequest)
    (w : World) (bodyBuffer : Option (List Nat)) : HandlerResult :=
  { response := .origin (w.fetchResp (createProxyRequest dBackup req bodyBuffer))
    fetches := [createProxyRequest dMain req bodyBuffer,
      createProxyRequest dBackup req bodyBuffer]
    kvWrites := [⟨"primary_status", "down", 600, !w.kvSetFails⟩]
    kvGets := 0 }

/-- The probe part of the `/api/notice` branch, after the body has been
buffered: fetch the primary with a 10 s timeout; on a 2xx response mark
`up` (detached write, 600 s TTL) and return that response; on a non-2xx
status, transport error or timeout, fail over to the backup. -/
def noticeFlow (dMain dBackup : String) (req : InboundRequest) (w : World)
    (bodyBuffer : Option (List Nat)) : ProbeOutcome → HandlerResult
  | .resp r =>
    if responseOk r then
      { response := .origin r
        fetches := [createProxyRequest dMain req bodyBuffer]
        kvWrites := [⟨"primary_status", "up", 600, !w.kvSetFails⟩]
        kvGets := 0 }
    else failoverToBackup dMain dBackup req w bodyBuffer
  | .failure => failoverToBackup dMain dBackup req w bodyBuffer

/-- The cached-health check of the default branch: `isUp` stays `true`
unless the `kv.get` on the `primary_status` key succeeds and returns the
string `down`; a read
failure leaves it `true` (fail open). -/
def isUp : Except Unit (Option String) → Bool
  | .ok (some s) => !(s == "down")
  | .ok none => true
  | .error _ => true

/-- The request handler of `src/api/index.js`. -/
def handler (env : Env) (req : InboundRequest) (w : World) : HandlerResult :=
  if normalizeDomain env.DOMAIN_MAIN = "" ∨
      normalizeDomain env.DOMAIN_BACKUP = "" then
    { response := .configError, fetches := [], kvWrites := [], kvGets := 0 }
  else if req.pathname = "/api/notice" then
    match bufferBody req w with
    | .error _ =>
      { response := .badRequest, fetches := [], kvWrites := [], kvGets := 0 }
    | .ok bodyBuffer =>
      noticeFlow (normalizeDomain env.DOMAIN_MAIN)
        (normalizeDomain env.DOMAIN_BACKUP) req w bodyBuffer w.probe
  else if isUp w.kvGet then
    { response := .origin (w.fetchResp
        (createProxyRequest (normalizeDomain env.DOMAIN_MAIN) req none))
      fetches := [createProxyRequest (normalizeDomain env.DOMAIN_MAIN) req none]
      kvWrites := [], kvGets := 1 }
  else
    { response := .origin (w.fetchResp
        (createProxyRequest (normalizeDomain env.DOMAIN_BACKUP) req none))
      fetches := [createProxyRequest (normalizeDomain env.DOMAIN_BACKUP) req none]
      kvWrites := [], kvGets := 1 }

/-- The timeout (ms) armed around the primary probe fetch. -/
def probeTimeoutMs : Nat := 10000

/-- The TTL (s) passed to both `kv.set` calls. -/
def healthTtlSeconds : Nat := 600

/-- Example inbound POST request to the designated probe path, with a body. -/
def exNoticeReq : InboundRequest :=
  { method := "POST", host := "proxy.example", pathname := "/api/notice",
    search := "", headers := [("host", "proxy.example"), ("accept", "text/html")],
    body := some 0 }

/-- Example inbound GET request to an ordinary path. -/
def exGetReq : InboundRequest :=
  { method := "GET", host := "proxy.example", pathname := "/widgets",
    search := "?id=9", headers := [("host", "proxy.example")], body := none }

/-- Example 2xx origin response. -/
def exOkResp : OriginResponse := { status := 200, headers := [], bodyTag := 7 }

/-- Example 3xx origin response with a Location header. -/
def exRedirectResp : OriginResponse :=
  { status := 301, headers := [("location", "https://elsewhere.example/new")],
    bodyTag := 8 }

/-- Example environment with both origins configured (one with a trailing
slash, exercising normalization). -/
def exEnv : Env :=
  { DOMAIN_MAIN := some "https://main.example/",
    DOMAIN_BACKUP := some "https://backup.example" }

/-- Example world where everything succeeds and the probe returns 200. -/
def exWorldOk : World :=
  { bodyRead := .ok [123], probe := .resp exOkResp,
    fetchResp := fun _ => exOkResp, kvGet := .ok none, kvSetFails := false }

/-- Branch lemma: with both origins configured and the designated pathname,
the handler runs the probe flow on the buffered body. -/
theorem handler_notice (env : Env) (req : InboundRequest) (w : World)
    (bb : Option (List Nat))
    (hm : normalizeDomain env.DOMAIN_MAIN ≠ "")
    (hb : normalizeDomain env.DOMAIN_BACKUP ≠ "")
    (hpath : req.pathname = "/api/notice")
    (hbuf : bufferBody req w = .ok bb) :
    handler env req w =
      noticeFlow (normalizeDomain env.DOMAIN_MAIN)
        (normalizeDomain env.DOMAIN_BACKUP) req w bb w.probe := by
  have hcfg : ¬ (normalizeDomain env.DOMAIN_MAIN = "" ∨
      normalizeDomain env.DOMAIN_BACKUP = "") := by
    rintro (h | h)
    · exact hm h
    · exact hb h
  unfold handler
  rw [if_neg hcfg, if_pos hpath, hbuf]

/-- C9: if either configured origin value is missing or empty after
normalization, the handler returns the fixed 500 configuration-error
response and performs no outbound fetch and no health-store access. -/
theorem missing_config_500 (env : Env) (req : InboundRequest) (w : World)
    (h : normalizeDomain env.DOMAIN_MAIN = "" ∨
      normalizeDomain env.DOMAIN_BACKUP = "") :
    handler env req w =
      { response := .configError, fetches := [], kvWrites := [], kvGets := 0 } ∧
    (handler env req w).response.status = 500 := by
  unfold handler
  rw [if_pos h]
  exact ⟨rfl, rfl⟩

/-- Witness for C9: with DOMAIN_MAIN unset, every request gets the
configuration-error response and no fetch or kv access happens. -/
theorem missing_config_500_witness :
    handler ⟨none, some "https://backup.example"⟩ exGetReq exWorldOk =
      { response := .configError, fetches := [], kvWrites := [], kvGets := 0 } ∧
    (handler ⟨none, some "https://backup.example"⟩ exGetReq
      exWorldOk).response.status = 500 :=
  missing_config_500 ⟨none, some "https://backup.example"⟩ exGetReq exWorldOk
    (Or.inl rfl)

/-- C10: an origin configured as the sole character `/` normalizes to the
empty string, so the handler behaves exactly as with the value absent: the
same 500 configuration-error response. -/
theorem slash_only_origin_config_error (env : Env) (req : InboundRequest)
    (w : World)
    (h : env.DOMAIN_MAIN = some "/" ∨ env.DOMAIN_BACKUP = some "/") :
    normalizeDomain (some "/") = "" ∧
    handler env req w = handler ⟨none, none⟩ req w ∧
    (handler env req w).response = .configError ∧
    (handler env req w).response.status = 500 := by
  have hn : normalizeDomain (some "/") = "" := by decide
  have hcfg : normalizeDomain env.DOMAIN_MAIN = "" ∨
      normalizeDomain env.DOMAIN_BACKUP = "" := by
    rcases h with h | h
    · exact Or.inl (by rw [h]; exact hn)
    · exact Or.inr (by rw [h]; exact hn)
  have hmain : handler env req w =
      { response := .configError, fetches := [], kvWrites := [], kvGets := 0 } := by
    unfold handler
    rw [if_pos hcfg]
  have hnone : handler ⟨none, none⟩ req w =
      { response := .configError, fetches := [], kvWrites := [], kvGets := 0 } := by
    unfold handler
    rw [if_pos (Or.inl (show normalizeDomain (none : Option String) = ""
      from rfl))]
  exact ⟨hn, by rw [hmain, hnone], by rw [hmain], by rw [hmain]; rfl⟩

/-- Witness for C10: DOMAIN_MAIN set to the literal slash behaves exactly
like an absent DOMAIN_MAIN. -/
theorem slash_only_origin_config_error_witness :
    normalizeDomain (some "/") = "" ∧
    handler ⟨some "/", some "https://backup.example"⟩ exGetReq exWorldOk =
      handler ⟨none, none⟩ exGetReq exWorldOk ∧
    (handler ⟨some "/", some "https://backup.example"⟩ exGetReq
      exWorldOk).response = .configError ∧
    (handler ⟨some "/", some "https://backup.example"⟩ exGetReq
      exWorldOk).response.status = 500 :=
  slash_only_origin_config_error ⟨some "/", some "https://backup.example"⟩
    exGetReq exWorldOk (Or.inl rfl)

/-- C1: on the designated path, when the body buffers successfully and the
primary probe resolves within the timeout with a 2xx status, the caller gets
exactly the primary response, and `primary_status` is set to `up` with a
600 s TTL. -/
theorem notice_primary_2xx (env : Env) (req : InboundRequest) (w : World)
    (r : OriginResponse) (bb : Option (List Nat))
    (hm : normalizeDomain env.DOMAIN_MAIN ≠ "")
    (hb : normalizeDomain env.DOMAIN_BACKUP ≠ "")
    (hpath : req.pathname = "/api/notice")
    (hbuf : bufferBody req w = .ok bb)
    (hprobe : w.probe = .resp r)
    (h2xx : 200 ≤ r.status ∧ r.status ≤ 299) :
    (handler env req w).response = .origin r ∧
    (handler env req w).kvWrites.map (fun kw => (kw.key, kw.value, kw.ex)) =
      [("primary_status", "up", healthTtlSeconds)] := by
  rw [handler_notice env req w bb hm hb hpath hbuf, hprobe]
  simp only [noticeFlow]
  rw [if_pos (show responseOk r from h2xx)]
  exact ⟨rfl, rfl⟩

/-- Witness for C1: concrete 200-status probe on the designated path. -/
theorem notice_primary_2xx_witness :
    (handler exEnv exNoticeReq exWorldOk).response = .origin exOkResp ∧
    (handler exEnv exNoticeReq exWorldOk).kvWrites.map
        (fun kw => (kw.key, kw.value, kw.ex)) =
      [("primary_status", "up", healthTtlSeconds)] :=
  notice_primary_2xx exEnv exNoticeReq exWorldOk exOkResp (some [123])
    (by decide) (by decide) rfl rfl rfl (by decide)

/-- C2: on the designated path, when the probe yields a non-2xx status, a
transport error, or a timeout, `primary_status` is set to `down` with a
600 s TTL and the caller receives the backup response, the backup request
being built from the same buffered body as the primary one. -/
theorem notice_probe_failure_failover (env : Env) (req : InboundRequest)
    (w : World) (bb : Option (List Nat))
    (hm : normalizeDomain env.DOMAIN_MAIN ≠ "")
    (hb : normalizeDomain env.DOMAIN_BACKUP ≠ "")
    (hpath : req.pathname = "/api/notice")
    (hbuf : bufferBody req w = .ok bb)
    (hfail : w.probe = .failure ∨
      ∃ r, w.probe = .resp r ∧ ¬ responseOk r) :
    (handler env req w).response =
      .origin (w.fetchResp
        (createProxyRequest (normalizeDomain env.DOMAIN_BACKUP) req bb)) ∧
    (handler env req w).fetches =
      [createProxyRequest (normalizeDomain env.DOMAIN_MAIN) req bb,
        createProxyRequest (normalizeDomain env.DOMAIN_BACKUP) req bb] ∧
    (handler env req w).kvWrites.map (fun kw => (kw.key, kw.value, kw.ex)) =
      [("primary_status", "down", healthTtlSeconds)] := by
  rw [handler_notice env req w bb hm hb hpath hbuf]
  rcases hfail with h | ⟨r, hr, hnot⟩
  · rw [h]
    exact ⟨rfl, rfl, rfl⟩
  · rw [hr]
    simp only [noticeFlow]
    rw [if_neg hnot]
    exact ⟨rfl, rfl, rfl⟩

/-- Witness for C2: concrete timed-out/errored probe on the designated
path, with a buffered body replayed to the backup. -/
theorem notice_probe_failure_failover_witness :
    (handler exEnv exNoticeReq { exWorldOk with probe := .failure }).response =
      .origin (({ exWorldOk with probe := .failure } : World).fetchResp
        (createProxyRequest (normalizeDomain exEnv.DOMAIN_BACKUP)
          exNoticeReq (some [123]))) ∧
    (handler exEnv exNoticeReq { exWorldOk with probe := .failure }).fetches =
      [createProxyRequest (normalizeDomain exEnv.DOMAIN_MAIN) exNoticeReq
          (some [123]),
        createProxyRequest (normalizeDomain exEnv.DOMAIN_BACKUP) exNoticeReq
          (some [123])] ∧
    (handler exEnv exNoticeReq { exWorldOk with probe := .failure }).kvWrites.map
        (fun kw => (kw.key, kw.value, kw.ex)) =
      [("primary_status", "down", healthTtlSeconds)] :=
  notice_probe_failure_failover exEnv exNoticeReq
    { exWorldOk with probe := .failure } (some [123])
    (by decide) (by decide) rfl rfl (Or.inl rfl)

/-- C3: on any non-designated path, an absent or `up` cached health record
routes the request to the primary, a `down` record routes it to the backup,
and the health store is never written. -/
theorem default_cached_routing (env : Env) (req : InboundRequest) (w : World)
    (hm : normalizeDomain env.DOMAIN_MAIN ≠ "")
    (hb : normalizeDomain env.DOMAIN_BACKUP ≠ "")
    (hpath : req.pathname ≠ "/api/notice") :
    (handler env req w).kvWrites = [] ∧
    (handler env req w).kvGets = 1 ∧
    ((w.kvGet = .ok none ∨ w.kvGet = .ok (some "up")) →
      (handler env req w).response =
        .origin (w.fetchResp
          (createProxyRequest (normalizeDomain env.DOMAIN_MAIN) req none)) ∧
      (handler env req w).fetches =
        [createProxyRequest (normalizeDomain env.DOMAIN_MAIN) req none]) ∧
    (w.kvGet = .ok (some "down") →
      (handler env req w).response =
        .origin (w.fetchResp
          (createProxyRequest (normalizeDomain env.DOMAIN_BACKUP) req none)) ∧
      (handler env req w).fetches =
        [createProxyRequest (normalizeDomain env.DOMAIN_BACKUP) req none]) := by
  have hcfg : ¬ (normalizeDomain env.DOMAIN_MAIN = "" ∨
      normalizeDomain env.DOMAIN_BACKUP = "") := by
    rintro (h | h)
    · exact hm h
    · exact hb h
  unfold handler
  rw [if_neg hcfg, if_neg hpath]
  refine ⟨?_, ?_, ?_, ?_⟩
  · split <;> rfl
  · split <;> rfl
  · rintro (h | h) <;> rw [h] <;> exact ⟨rfl, rfl⟩
  · intro h
    rw [h]
    exact ⟨rfl, rfl⟩

/-- Witness for C3: a GET to an ordinary path with an absent health record
goes to the primary with no kv write. -/
theorem default_cached_routing_witness :
    (handler exEnv exGetReq exWorldOk).kvWrites = [] ∧
    (handler exEnv exGetReq exWorldOk).response =
      .origin (exWorldOk.fetchResp
        (createProxyRequest (normalizeDomain exEnv.DOMAIN_MAIN) exGetReq none)) ∧
    (handler exEnv exGetReq exWorldOk).fetches =
      [createProxyRequest (normalizeDomain exEnv.DOMAIN_MAIN) exGetReq none] :=
  ⟨(default_cached_routing exEnv exGetReq exWorldOk (by decide) (by decide)
      (by decide)).1,
    ((default_cached_routing exEnv exGetReq exWorldOk (by decide) (by decide)
      (by decide)).2.2.1 (Or.inl rfl)).1,
    ((default_cached_routing exEnv exGetReq exWorldOk (by decide) (by decide)
      (by decide)).2.2.1 (Or.inl rfl)).2⟩

/-- C4: on any non-designated path, a failing health-store read routes the
request to the primary (fail open), not to the backup and not to an error
response. -/
theorem default_fail_open (env : Env) (req : InboundRequest) (w : World)
    (hm : normalizeDomain env.DOMAIN_MAIN ≠ "")
    (hb : normalizeDomain env.DOMAIN_BACKUP ≠ "")
    (hpath : req.pathname ≠ "/api/notice")
    (hkv : w.kvGet = .error ()) :
    (handler env req w).response =
      .origin (w.fetchResp
        (createProxyRequest (normalizeDomain env.DOMAIN_MAIN) req none)) ∧
    (handler env req w).fetches =
      [createProxyRequest (normalizeDomain env.DOMAIN_MAIN) req none] ∧
    (handler env req w).kvWrites = [] := by
  have hcfg : ¬ (normalizeDomain env.DOMAIN_MAIN = "" ∨
      normalizeDomain env.DOMAIN_BACKUP = "") := by
    rintro (h | h)
    · exact hm h
    · exact hb h
  unfold handler
  rw [if_neg hcfg, if_neg hpath, hkv]
  exact ⟨rfl, rfl, rfl⟩

/-- Witness for C4: a failing kv read on an ordinary path still goes to the
primary. -/
theorem default_fail_open_witness :
    (handler exEnv exGetReq { exWorldOk with kvGet := .error () }).response =
      .origin (({ exWorldOk with kvGet := .error () } : World).fetchResp
        (createProxyRequest (normalizeDomain exEnv.DOMAIN_MAIN) exGetReq none)) ∧
    (handler exEnv exGetReq { exWorldOk with kvGet := .error () }).fetches =
      [createProxyRequest (normalizeDomain exEnv.DOMAIN_MAIN) exGetReq none] ∧
    (handler exEnv exGetReq { exWorldOk with kvGet := .error () }).kvWrites =
      [] :=
  default_fail_open exEnv exGetReq { exWorldOk with kvGet := .error () }
    (by decide) (by decide) (by decide) rfl

/-- C5: whether the detached kv.set task succeeds or fails has no effect on
the response delivered to the caller nor on the outbound requests issued,
in every branch of the handler. -/
theorem kvset_failure_response_independent (env : Env) (req : InboundRequest)
    (w : World) (b : Bool) :
    (handler env req { w with kvSetFails := b }).response =
      (handler env req w).response ∧
    (handler env req { w with kvSetFails := b }).fetches =
      (handler env req w).fetches := by
  obtain ⟨br, pr, fr, kg, ks⟩ := w
  by_cases hc : normalizeDomain env.DOMAIN_MAIN = "" ∨
      normalizeDomain env.DOMAIN_BACKUP = ""
  · simp [handler, hc]
  by_cases hp : req.pathname = "/api/notice"
  · rcases hbody : req.body with _ | t
    · cases pr with
      | resp r =>
        by_cases hok : responseOk r
        · simp [handler, hc, hp, bufferBody, Except.map, hbody, noticeFlow, hok,
            failoverToBackup]
        · simp [handler, hc, hp, bufferBody, Except.map, hbody, noticeFlow, hok,
            failoverToBackup]
      | failure =>
        simp [handler, hc, hp, bufferBody, Except.map, hbody, noticeFlow, failoverToBackup]
    · cases br with
      | error e => simp [handler, hc, hp, bufferBody, Except.map, hbody]
      | ok bs =>
        cases pr with
        | resp r =>
          by_cases hok : responseOk r
          · simp [handler, hc, hp, bufferBody, Except.map, hbody, noticeFlow, hok,
              failoverToBackup]
          · simp [handler, hc, hp, bufferBody, Except.map, hbody, noticeFlow, hok,
              failoverToBackup]
        | failure =>
          simp [handler, hc, hp, bufferBody, Except.map, hbody, noticeFlow,
            failoverToBackup]
  · simp [handler, hc, hp]

/-- C6: the outbound header set is the inbound one with the Host header
removed (under case-insensitive matching) and X-Forwarded-Host set to the
inbound host; every other header is carried over unchanged. -/
theorem proxy_request_headers (target : String) (req : InboundRequest)
    (bo : Option (List Nat)) :
    (∀ k v, (k, v) ∈ (createProxyRequest target req bo).headers →
      lowerName k ≠ "host") ∧
    ("x-forwarded-host", req.host) ∈ (createProxyRequest target req bo).headers ∧
    (∀ k v, (k, v) ∈ (createProxyRequest target req bo).headers →
      lowerName k = "x-forwarded-host" → v = req.host) ∧
    (∀ k v, lowerName k ≠ "host" → lowerName k ≠ "x-forwarded-host" →
      ((k, v) ∈ (createProxyRequest target req bo).headers ↔
        (k, v) ∈ req.headers)) := by
  have hxl : lowerName "x-forwarded-host" = "x-forwarded-host" := rfl
  have hhl : lowerName "host" = "host" := rfl
  refine ⟨?_, ?_, ?_, ?_⟩
  · intro k v hkv
    simp only [createProxyRequest, headersSet, headersDelete, List.mem_append,
      List.mem_filter, List.mem_singleton, decide_eq_true_eq, hxl, hhl,
      Prod.mk.injEq] at hkv
    rcases hkv with ⟨⟨_, hne⟩, _⟩ | ⟨hk, _⟩
    · exact hne
    · rw [hk, hxl]
      decide
  · have hmem : ("x-forwarded-host", req.host) ∈
        [(lowerName "x-forwarded-host", req.host)] := by
      rw [hxl]
      exact List.mem_singleton_self _
    exact List.mem_append.mpr (Or.inr hmem)
  · intro k v hkv hx
    simp only [createProxyRequest, headersSet, headersDelete, List.mem_append,
      List.mem_filter, List.mem_singleton, decide_eq_true_eq, hxl, hhl,
      Prod.mk.injEq] at hkv
    rcases hkv with ⟨_, hne⟩ | ⟨_, hv⟩
    · exact absurd hx hne
    · exact hv
  · intro k v hkh hkx
    simp only [createProxyRequest, headersSet, headersDelete, List.mem_append,
      List.mem_filter, List.mem_singleton, decide_eq_true_eq, hxl, hhl,
      Prod.mk.injEq]
    constructor
    · rintro (⟨⟨hmem, _⟩, _⟩ | ⟨hk, _⟩)
      · exact hmem
      · exact absurd (by rw [hk]; exact hxl) hkx
    · intro hmem
      exact Or.inl ⟨⟨hmem, hkh⟩, hkx⟩

/-- Witness for C6: the concrete forwarded request carries X-Forwarded-Host
with the inbound host. -/
theorem proxy_request_headers_witness :
    ("x-forwarded-host", exNoticeReq.host) ∈
      (createProxyRequest "https://main.example" exNoticeReq
        (some [123])).headers :=
  (proxy_request_headers "https://main.example" exNoticeReq (some [123])).2.1

/-- C7: GET and HEAD requests are forwarded without a body; for any other
method the outbound body is the buffered override when supplied, else the
inbound body stream. -/
theorem proxy_request_body (target : String) (req : InboundRequest)
    (bo : Option (List Nat)) :
    ((req.method = "GET" ∨ req.method = "HEAD") →
      (createProxyRequest target req bo).body = none) ∧
    (∀ b, req.method ≠ "GET" → req.method ≠ "HEAD" → bo = some b →
      (createProxyRequest target req bo).body = some (OutBody.buffer b)) ∧
    (req.method ≠ "GET" → req.method ≠ "HEAD" → bo = none →
      (createProxyRequest target req bo).body =
        Option.map OutBody.stream req.body) := by
  refine ⟨?_, ?_, ?_⟩
  · intro h
    simp [createProxyRequest, h]
  · intro b h1 h2 hbo
    rw [hbo]
    simp [createProxyRequest, h1, h2]
  · intro h1 h2 hbo
    rw [hbo]
    simp [createProxyRequest, h1, h2]

/-- Witness for C7: a concrete GET is forwarded with no body, and a concrete
POST with a buffered body is forwarded with exactly that buffer. -/
theorem proxy_request_body_witness :
    (createProxyRequest "https://backup.example" exGetReq none).body = none ∧
    (createProxyRequest "https://main.example" exNoticeReq
      (some [123])).body = some (OutBody.buffer [123]) :=
  ⟨(proxy_request_body "https://backup.example" exGetReq none).1 (Or.inl rfl),
    (proxy_request_body "https://main.example" exNoticeReq (some [123])).2.1
      [123] (by decide) (by decide) rfl⟩

/-- C8: every outbound request is built with redirect handling set to
manual, and any origin response delivered to the caller is delivered
verbatim (it is exactly the probe response or the fetch result of one of
the issued requests), so a 3xx status and its Location header reach the
caller unmodified and unfollowed. -/
theorem redirect_manual_passthrough (env : Env) (req : InboundRequest)
    (w : World) :
    (∀ p, p ∈ (handler env req w).fetches → p.redirect = "manual") ∧
    (∀ r, (handler env req w).response = .origin r →
      w.probe = .resp r ∨
      ∃ p, p ∈ (handler env req w).fetches ∧ r = w.fetchResp p) := by
  unfold handler
  split
  · exact ⟨fun p hp => absurd hp (List.not_mem_nil p),
      fun r hr => absurd hr (by simp)⟩
  split
  · split
    · exact ⟨fun p hp => absurd hp (List.not_mem_nil p),
        fun r hr => absurd hr (by simp)⟩
    · rcases hpr : w.probe with r0 | _
      · simp only [noticeFlow]
        by_cases hok : responseOk r0
        · rw [if_pos hok]
          refine ⟨?_, ?_⟩
          · intro p hp
            simp only [List.mem_singleton] at hp
            rw [hp]
            rfl
          · intro r hr
            injection hr with h
            exact Or.inl (by rw [h])
        · rw [if_neg hok]
          refine ⟨?_, ?_⟩
          · intro p hp
            simp only [failoverToBackup, List.mem_cons, List.mem_singleton,
              List.not_mem_nil, or_false] at hp
            rcases hp with rfl | rfl <;> rfl
          · intro r hr
            simp only [failoverToBackup] at hr ⊢
            injection hr with h
            exact Or.inr ⟨_, by simp, h.symm⟩
      · refine ⟨?_, ?_⟩
        · intro p hp
          simp only [noticeFlow, failoverToBackup, List.mem_cons,
            List.mem_singleton, List.not_mem_nil, or_false] at hp
          rcases hp with rfl | rfl <;> rfl
        · intro r hr
          simp only [noticeFlow, failoverToBackup] at hr ⊢
          injection hr with h
          exact Or.inr ⟨_, by simp, h.symm⟩
  split
  · refine ⟨?_, ?_⟩
    · intro p hp
      simp only [List.mem_singleton] at hp
      rw [hp]
      rfl
    · intro r hr
      injection hr with h
      exact Or.inr ⟨_, by simp, h.symm⟩
  · refine ⟨?_, ?_⟩
    · intro p hp
      simp only [List.mem_singleton] at hp
      rw [hp]
      rfl
    · intro r hr
      injection hr with h
      exact Or.inr ⟨_, by simp, h.symm⟩

/-- Example world whose plain fetches answer with a 301 redirect carrying a
Location header. -/
def exWorldRedirect : World :=
  { exWorldOk with
      fetchResp := fun _ => exRedirectResp
      kvGet := .ok (some "up") }

/-- Witness for C8: the concrete outbound request of a default-path GET is
built with manual redirect handling while the origin answers 301. -/
theorem redirect_manual_passthrough_witness :
    (createProxyRequest (normalizeDomain exEnv.DOMAIN_MAIN) exGetReq
      none).redirect = "manual" :=
  (redirect_manual_passthrough exEnv exGetReq exWorldRedirect).1
    (createProxyRequest (normalizeDomain exEnv.DOMAIN_MAIN) exGetReq none)
    (by decide)

end ProxyOneApi
